import Mathlib

/-!
Shallow embedding of the energy-estimation and forecasting logic of the
earth_prize application (pages/2_Geographic_Calculator.py and
pages/3_Time_Series_Predictor.py).  Python floats are modelled by `ℚ`
(all constants in the source are decimal literals, exact in `ℚ`);
Python `int()` truncation is modelled explicitly.
-/

namespace EarthPrize

/-- Python `int(q)` truncates toward zero. -/
def pyInt (q : ℚ) : ℤ := if 0 ≤ q then ⌊q⌋ else ⌈q⌉

/-! ## Energy Estimator (2_Geographic_Calculator.py, lines 274-329) -/

/-- The physical inputs to the "Calculate Energy Potential" block:
sliders/number inputs `waterfall_height`, `waterfall_flow`, `geo_temp`,
`depth`, `turbine_efficiency`, `geo_efficiency`, `capacity_factor`. -/
structure EnergyInputs where
  waterfall_height : ℚ
  waterfall_flow : ℚ
  geo_temp : ℚ
  depth : ℚ
  turbine_efficiency : ℚ
  geo_efficiency : ℚ
  capacity_factor : ℚ
deriving DecidableEq, Repr

/-- The values the calculation block stores in `st.session_state.geo_data`
(plus the per-source household counts shown in the UI). -/
structure EnergyEstimate where
  P_waterfall_MW : ℚ
  E_waterfall_year_MWh : ℚ
  households_waterfall : ℤ
  has_waterfall : Bool
  P_geo_MW : ℚ
  E_geo_year_MWh : ℚ
  households_geo : ℤ
  pipe_material : String
  relative_cost : ℚ
  has_geothermal : Bool
  E_waste_recovered_MWh : ℚ
  households_waste : ℤ
  P_total_MW : ℚ
  E_total_year_MWh : ℚ
  households_total : ℤ
deriving DecidableEq, Repr

/-- Straight transcription of the calculation block
(2_Geographic_Calculator.py lines 274-329): constants
`rho = 1000`, `g = 9.81`, `specific_heat = 4.18`, `surface_temp = 25`;
waterfall branch guarded by `waterfall_height > 0 and waterfall_flow > 0`;
geothermal branch guarded by `geo_temp > 50 and depth > 0` with internal
working-fluid flow rate `50.0` kg/s; waste recovery is 5% of the summed
annual energies; households divide by 7.2 MWh/year with `int` truncation. -/
def calcEnergy (inp : EnergyInputs) : EnergyEstimate :=
  let rho : ℚ := 1000
  let g : ℚ := 9.81
  let specific_heat : ℚ := 4.18
  let surface_temp : ℚ := 25
  let wf :=
    if inp.waterfall_height > 0 ∧ inp.waterfall_flow > 0 then
      let P_waterfall_watts :=
        rho * g * inp.waterfall_flow * inp.waterfall_height * inp.turbine_efficiency
      let P_waterfall_MW := P_waterfall_watts / 1000000
      let E_waterfall_year_MWh := P_waterfall_MW * 24 * 365
      (P_waterfall_MW, E_waterfall_year_MWh, pyInt (E_waterfall_year_MWh * 1000 / 7.2), true)
    else
      ((0 : ℚ), (0 : ℚ), (0 : ℤ), false)
  let geo :=
    if inp.geo_temp > 50 ∧ inp.depth > 0 then
      let flow_rate_geo : ℚ := 50
      let temp_diff := inp.geo_temp - surface_temp
      let thermal_power_kW := flow_rate_geo * specific_heat * temp_diff
      let P_geo_MW := thermal_power_kW * inp.geo_efficiency / 1000
      let E_geo_year_MWh := P_geo_MW * 24 * 365 * inp.capacity_factor
      let pipe :=
        if inp.geo_temp < 300 then ("Stainless Steel / Incoloy", (1 : ℚ))
        else if inp.geo_temp < 600 then ("Inconel alloys / Nickel-chromium", (2.5 : ℚ))
        else ("Ceramic composites / SiC / Titanium alloys", (5 : ℚ))
      (P_geo_MW, E_geo_year_MWh, pyInt (E_geo_year_MWh * 1000 / 7.2), pipe.1, pipe.2, true)
    else
      ((0 : ℚ), (0 : ℚ), (0 : ℤ), "N/A", (0 : ℚ), false)
  let E_waste_recovered_MWh := (wf.2.1 + geo.2.1) * 0.05
  let P_total_MW := wf.1 + geo.1
  let E_total_year_MWh := wf.2.1 + geo.2.1 + E_waste_recovered_MWh
  { P_waterfall_MW := wf.1
    E_waterfall_year_MWh := wf.2.1
    households_waterfall := wf.2.2.1
    has_waterfall := wf.2.2.2
    P_geo_MW := geo.1
    E_geo_year_MWh := geo.2.1
    households_geo := geo.2.2.1
    pipe_material := geo.2.2.2.1
    relative_cost := geo.2.2.2.2.1
    has_geothermal := geo.2.2.2.2.2
    E_waste_recovered_MWh := E_waste_recovered_MWh
    households_waste := pyInt (E_waste_recovered_MWh * 1000 / 7.2)
    P_total_MW := P_total_MW
    E_total_year_MWh := E_total_year_MWh
    households_total := pyInt (E_total_year_MWh * 1000 / 7.2) }

/-- The geothermal power field of the estimate, in closed form. -/
theorem calcEnergy_P_geo (inp : EnergyInputs) :
    (calcEnergy inp).P_geo_MW =
      if inp.geo_temp > 50 ∧ inp.depth > 0 then
        50 * 4.18 * (inp.geo_temp - 25) * inp.geo_efficiency / 1000
      else 0 := by
  by_cases h : inp.geo_temp > 50 ∧ inp.depth > 0 <;>
    simp [calcEnergy, h]

/-- The geothermal annual energy field of the estimate, in closed form. -/
theorem calcEnergy_E_geo (inp : EnergyInputs) :
    (calcEnergy inp).E_geo_year_MWh =
      if inp.geo_temp > 50 ∧ inp.depth > 0 then
        50 * 4.18 * (inp.geo_temp - 25) * inp.geo_efficiency / 1000 * 24 * 365
          * inp.capacity_factor
      else 0 := by
  by_cases h : inp.geo_temp > 50 ∧ inp.depth > 0 <;>
    simp [calcEnergy, h]

/-- The waterfall power field of the estimate, in closed form. -/
theorem calcEnergy_P_waterfall (inp : EnergyInputs) :
    (calcEnergy inp).P_waterfall_MW =
      if inp.waterfall_height > 0 ∧ inp.waterfall_flow > 0 then
        1000 * 9.81 * inp.waterfall_flow * inp.waterfall_height * inp.turbine_efficiency
          / 1000000
      else 0 := by
  by_cases h : inp.waterfall_height > 0 ∧ inp.waterfall_flow > 0 <;>
    simp [calcEnergy, h]

/-- The waterfall annual energy field of the estimate, in closed form. -/
theorem calcEnergy_E_waterfall (inp : EnergyInputs) :
    (calcEnergy inp).E_waterfall_year_MWh =
      (calcEnergy inp).P_waterfall_MW * 24 * 365 := by
  by_cases h : inp.waterfall_height > 0 ∧ inp.waterfall_flow > 0 <;>
    simp [calcEnergy, h]

/-! ## Climate scenario generation (3_Time_Series_Predictor.py, lines 128-195) -/

/-- One monthly climate observation `[temperature, rainfall]`. -/
structure ClimatePoint where
  temp : ℚ
  rain : ℚ
deriving DecidableEq, Repr

/-- The `bangladesh_climate` dict (lines 138-151): typical (temperature °C,
rainfall mm) per calendar month; defined on keys 1-12, any other key is
never looked up in the source. -/
def bangladesh_climate (m : ℤ) : ℚ × ℚ :=
  if m = 1 then (19, 20)
  else if m = 2 then (22, 25)
  else if m = 3 then (26, 50)
  else if m = 4 then (28, 100)
  else if m = 5 then (28, 250)
  else if m = 6 then (28, 350)
  else if m = 7 then (28, 400)
  else if m = 8 then (28, 350)
  else if m = 9 then (27, 300)
  else if m = 10 then (26, 150)
  else if m = 11 then (23, 30)
  else (20, 15)

/-- The `month_names` list (lines 172-173). -/
def month_names : List String :=
  ["Jan", "Feb", "Mar", "Apr", "May", "Jun", "Jul", "Aug", "Sep", "Oct", "Nov", "Dec"]

/-- Label for forecast step `i` (lines 169-174):
`month_num = (start_month_num + i - 1) % 12 + 1`,
`year_offset = (start_month_num + i - 1) // 12`,
label `= month_names[month_num-1] + " Y" + str(year_offset+1)`.
Integers are modelled by `ℤ`, whose `%` and `/` agree with Python's
`%` and `//` for the positive divisor 12. -/
def month_label (start_month_num i : ℤ) : String :=
  let month_num := (start_month_num + i - 1) % 12 + 1
  let year_offset := (start_month_num + i - 1) / 12
  month_names.getD (month_num - 1).toNat "" ++ " Y" ++ toString (year_offset + 1)

/-- The forward climate sequence (lines 168-186): for each step `i`,
the base climate of calendar month `(start + i - 1) % 12 + 1` scaled by
the scenario multipliers and a per-step jitter.  The jitter draws
`np.random.normal(1.0, σ)` under `np.random.seed(42 + i)` are a pure
function of the seed; they are abstracted as `jT`/`jR` applied to
`42 + i`. -/
def forwardClimate (jT jR : ℤ → ℚ) (temp_mult rain_mult : ℚ)
    (start_month_num : ℤ) (forecast_months : ℕ) : List ClimatePoint :=
  (List.range forecast_months).map fun (i : ℕ) =>
    let month_num := (start_month_num + (i : ℤ) - 1) % 12 + 1
    let base := bangladesh_climate month_num
    { temp := base.1 * temp_mult * jT (42 + (i : ℤ))
      rain := base.2 * rain_mult * jR (42 + (i : ℤ)) }

/-- The seed window (lines 189-195): the 12 months immediately preceding
the start month, oldest first, taken from `bangladesh_climate` with
`month_num = (start_month_num - i) % 12`, mapped to 12 when zero. -/
def historical_months (start_month_num : ℤ) : List ClimatePoint :=
  (List.range 12).map fun (k : ℕ) =>
    let i : ℤ := 12 - (k : ℤ)
    let m0 := (start_month_num - i) % 12
    let month_num := if m0 = 0 then 12 else m0
    let base := bangladesh_climate month_num
    { temp := base.1, rain := base.2 }

/-! ## Rolling Forecast Engine (3_Time_Series_Predictor.py, lines 198-256) -/

/-- What one iteration of the prediction loop records: the rescaled
prediction (appended to `predictions_mwh`), its two confidence bounds,
and the slid window (`current_sequence` after line 227). -/
structure StepRec where
  scaled_prediction : ℚ
  conf_lower : ℚ
  conf_upper : ℚ
  window : List ClimatePoint
deriving DecidableEq, Repr

/-- The rolling prediction loop (lines 202-227).  The composite
`scaler_y.inverse_transform ∘ model.predict ∘ scaler_X.transform` is an
opaque pre-trained artifact, abstracted as `predict`; the loop applies
it to the current 12-month window, rescales by
`scale_factor = base_power_mw * 730 / 3500`, records the ±15% band,
and slides the window by dropping the oldest month and appending the
step's forward climate point. -/
def rollingLoop (predict : List ClimatePoint → ℚ) (base_power_mw : ℚ) :
    List ClimatePoint → List ClimatePoint → List StepRec
  | _, [] => []
  | window, p :: rest =>
    let prediction_mwh := predict window
    let user_monthly_mwh := base_power_mw * 730
    let scale_factor := user_monthly_mwh / 3500
    let scaled_prediction := prediction_mwh * scale_factor
    let window2 := window.drop 1 ++ [p]
    { scaled_prediction := scaled_prediction
      conf_lower := scaled_prediction * 0.85
      conf_upper := scaled_prediction * 1.15
      window := window2 } :: rollingLoop predict base_power_mw window2 rest

/-- The raw reference predictions of the same loop: the value
`prediction_mwh` (line 211) produced at each step, before rescaling. -/
def refPredictions (predict : List ClimatePoint → ℚ) :
    List ClimatePoint → List ClimatePoint → List ℚ
  | _, [] => []
  | window, p :: rest =>
    predict window :: refPredictions predict (window.drop 1 ++ [p]) rest

/-- The `predictions_mwh` list accumulated by the loop. -/
def predictions_mwh (steps : List StepRec) : List ℚ :=
  steps.map StepRec.scaled_prediction

/-- The `confidence_lower` list accumulated by the loop. -/
def confidence_lower (steps : List StepRec) : List ℚ :=
  steps.map StepRec.conf_lower

/-- The `confidence_upper` list accumulated by the loop. -/
def confidence_upper (steps : List StepRec) : List ℚ :=
  steps.map StepRec.conf_upper

/-- The successive states of `current_sequence` after each loop step. -/
def loopWindows (steps : List StepRec) : List (List ClimatePoint) :=
  steps.map StepRec.window

/-- Per-source partition weight (lines 234-235):
`source_mw / base_power_mw if base_power_mw > 0 else 0.5`.
(The source calls these `waterfall_ratio` / `geo_ratio`.) -/
def sourceShare (source_mw base_power_mw : ℚ) : ℚ :=
  if base_power_mw > 0 then source_mw / base_power_mw else 0.5

/-- The pipeline state read from the Geographic Calculator
(lines 108-110). -/
structure GeoBase where
  base_power_mw : ℚ
  waterfall_mw : ℚ
  geo_mw : ℚ
deriving DecidableEq, Repr

/-- The forecast the engine stores in `st.session_state.predictions`
(lines 241-256). -/
structure ForecastSeries where
  months : List String
  temperatures : List ℚ
  rainfalls : List ℚ
  waterfall_mw : List ℚ
  geo_mw : List ℚ
  total_mw : List ℚ
  waterfall_mwh : List ℚ
  geo_mwh : List ℚ
  total_mwh : List ℚ
  conf_lower : List ℚ
  conf_upper : List ℚ
  total_annual_mwh : ℚ
deriving DecidableEq, Repr

/-- The whole "Generate LSTM Forecast" computation (lines 128-256):
build the forward climate sequence and seed window, run the rolling
loop, derive power from energy via `hours_per_month = 730`, partition
by the static source shares, and assemble the stored series. -/
def generateForecast (predict : List ClimatePoint → ℚ) (gb : GeoBase)
    (jT jR : ℤ → ℚ) (temp_mult rain_mult : ℚ)
    (start_month_num : ℤ) (forecast_months : ℕ) : ForecastSeries :=
  let months := (List.range forecast_months).map fun (i : ℕ) =>
    month_label start_month_num (i : ℤ)
  let forward := forwardClimate jT jR temp_mult rain_mult start_month_num forecast_months
  let seed := historical_months start_month_num
  let steps := rollingLoop predict gb.base_power_mw seed forward
  let preds := predictions_mwh steps
  let hours_per_month : ℚ := 730
  let waterfall_share := sourceShare gb.waterfall_mw gb.base_power_mw
  let geo_share := sourceShare gb.geo_mw gb.base_power_mw
  let waterfall_predictions := preds.map fun p => p * waterfall_share
  let geo_predictions := preds.map fun p => p * geo_share
  { months := months
    temperatures := forward.map ClimatePoint.temp
    rainfalls := forward.map ClimatePoint.rain
    waterfall_mw := waterfall_predictions.map fun w => w / hours_per_month
    geo_mw := geo_predictions.map fun g => g / hours_per_month
    total_mw := preds.map fun e => e / hours_per_month
    waterfall_mwh := waterfall_predictions
    geo_mwh := geo_predictions
    total_mwh := preds
    conf_lower := confidence_lower steps
    conf_upper := confidence_upper steps
    total_annual_mwh := preds.sum }

/-! ## Helper lemmas about the rolling loop -/

theorem rollingLoop_nil (predict : List ClimatePoint → ℚ) (b : ℚ)
    (window : List ClimatePoint) : rollingLoop predict b window [] = [] := rfl

theorem rollingLoop_cons (predict : List ClimatePoint → ℚ) (b : ℚ)
    (window : List ClimatePoint) (p : ClimatePoint) (rest : List ClimatePoint) :
    rollingLoop predict b window (p :: rest) =
      { scaled_prediction := predict window * (b * 730 / 3500)
        conf_lower := predict window * (b * 730 / 3500) * 0.85
        conf_upper := predict window * (b * 730 / 3500) * 1.15
        window := window.drop 1 ++ [p] } ::
        rollingLoop predict b (window.drop 1 ++ [p]) rest := rfl

theorem refPredictions_nil (predict : List ClimatePoint → ℚ)
    (window : List ClimatePoint) : refPredictions predict window [] = [] := rfl

theorem refPredictions_cons (predict : List ClimatePoint → ℚ)
    (window : List ClimatePoint) (p : ClimatePoint) (rest : List ClimatePoint) :
    refPredictions predict window (p :: rest) =
      predict window :: refPredictions predict (window.drop 1 ++ [p]) rest := rfl

/-- Each rescaled prediction of the loop is the raw reference prediction
of the same step times the scale factor `b * 730 / 3500`. -/
theorem predictions_mwh_rollingLoop (predict : List ClimatePoint → ℚ) (b : ℚ) :
    ∀ (fwd window : List ClimatePoint),
      predictions_mwh (rollingLoop predict b window fwd) =
        (refPredictions predict window fwd).map fun m => m * (b * 730 / 3500)
  | [], _ => rfl
  | p :: rest, window => by
    rw [rollingLoop_cons, refPredictions_cons]
    simp only [predictions_mwh, List.map_cons]
    rw [← predictions_mwh, predictions_mwh_rollingLoop predict b rest]

/-- The loop produces one step record per forward climate point. -/
theorem length_rollingLoop (predict : List ClimatePoint → ℚ) (b : ℚ) :
    ∀ (fwd window : List ClimatePoint),
      (rollingLoop predict b window fwd).length = fwd.length
  | [], _ => rfl
  | p :: rest, window => by
    rw [rollingLoop_cons, List.length_cons, length_rollingLoop predict b rest,
      List.length_cons]

/-- The lower confidence bound of every step is 0.85 times the rescaled
prediction of that step. -/
theorem confidence_lower_rollingLoop (predict : List ClimatePoint → ℚ) (b : ℚ) :
    ∀ (fwd window : List ClimatePoint),
      confidence_lower (rollingLoop predict b window fwd) =
        (predictions_mwh (rollingLoop predict b window fwd)).map fun e => 0.85 * e
  | [], _ => rfl
  | p :: rest, window => by
    rw [rollingLoop_cons]
    simp only [confidence_lower, predictions_mwh, List.map_cons]
    rw [← confidence_lower, ← predictions_mwh,
      confidence_lower_rollingLoop predict b rest]
    exact congrArg (· :: _) (mul_comm _ _)

/-- The upper confidence bound of every step is 1.15 times the rescaled
prediction of that step. -/
theorem confidence_upper_rollingLoop (predict : List ClimatePoint → ℚ) (b : ℚ) :
    ∀ (fwd window : List ClimatePoint),
      confidence_upper (rollingLoop predict b window fwd) =
        (predictions_mwh (rollingLoop predict b window fwd)).map fun e => 1.15 * e
  | [], _ => rfl
  | p :: rest, window => by
    rw [rollingLoop_cons]
    simp only [confidence_upper, predictions_mwh, List.map_cons]
    rw [← confidence_upper, ← predictions_mwh,
      confidence_upper_rollingLoop predict b rest]
    exact congrArg (· :: _) (mul_comm _ _)

/-- Closed form of the window states: after step `i` the window is the
last 12 entries of `seed ++ fwd.take (i+1)` — the tail of the seed
followed by the first `i+1` forward climate points. -/
theorem loopWindows_rollingLoop (predict : List ClimatePoint → ℚ) (b : ℚ) :
    ∀ (fwd seed : List ClimatePoint), seed.length = 12 →
      loopWindows (rollingLoop predict b seed fwd) =
        (List.range fwd.length).map fun i => (seed ++ fwd.take (i + 1)).drop (i + 1)
  | [], _, _ => rfl
  | q :: rest, seed, h => by
    cases seed with
    | nil => simp at h
    | cons s0 s' =>
      have hlen : (s' ++ [q]).length = 12 := by
        simp only [List.length_cons] at h
        simp [h]
      have ih := loopWindows_rollingLoop predict b rest (s' ++ [q]) hlen
      rw [rollingLoop_cons]
      simp only [loopWindows, List.map_cons, List.length_cons,
        List.range_succ_eq_map, List.map_map]
      congr 1
      have ih' : List.map StepRec.window (rollingLoop predict b (s' ++ [q]) rest) =
          List.map (fun i => List.drop (i + 1) ((s' ++ [q]) ++ List.take (i + 1) rest))
            (List.range rest.length) := ih
      simp only [List.drop_succ_cons, List.drop_zero]
      rw [ih']
      refine List.map_congr_left fun i _ => ?_
      simp [Function.comp, List.append_assoc]

/-- There is one raw reference prediction per forward climate point. -/
theorem length_refPredictions (predict : List ClimatePoint → ℚ) :
    ∀ (fwd window : List ClimatePoint),
      (refPredictions predict window fwd).length = fwd.length
  | [], _ => rfl
  | p :: rest, window => by
    rw [refPredictions_cons, List.length_cons, length_refPredictions predict rest,
      List.length_cons]

/-! ## Concrete inputs used in the end-to-end scenarios -/

/-- Scenario 1 of the spec: waterfall `Q = 10 m³/s`, `H = 50 m`, `η = 0.9`,
no geothermal source. -/
def scenario1 : EnergyInputs :=
  { waterfall_height := 50, waterfall_flow := 10, geo_temp := 0, depth := 3,
    turbine_efficiency := 0.9, geo_efficiency := 0.15, capacity_factor := 0.85 }

/-- Scenario 2 of the spec: geothermal `T = 200 °C`, `depth = 3 km`,
`geo_eff = 0.15`, `capacity_factor = 0.85`, no waterfall source. -/
def scenario2 : EnergyInputs :=
  { waterfall_height := 0, waterfall_flow := 0, geo_temp := 200, depth := 3,
    turbine_efficiency := 0.9, geo_efficiency := 0.15, capacity_factor := 0.85 }

/-- A viable geothermal input at 60 °C. -/
def sampleGeoA : EnergyInputs :=
  { waterfall_height := 0, waterfall_flow := 0, geo_temp := 60, depth := 3,
    turbine_efficiency := 0.9, geo_efficiency := 0.15, capacity_factor := 0.85 }

/-- A viable geothermal input at 70 °C, otherwise identical to `sampleGeoA`. -/
def sampleGeoB : EnergyInputs :=
  { waterfall_height := 0, waterfall_flow := 0, geo_temp := 70, depth := 3,
    turbine_efficiency := 0.9, geo_efficiency := 0.15, capacity_factor := 0.85 }

/-- A geothermal input exactly at the claimed 50 °C viability threshold. -/
def boundaryGeo : EnergyInputs :=
  { waterfall_height := 0, waterfall_flow := 0, geo_temp := 50, depth := 3,
    turbine_efficiency := 0.9, geo_efficiency := 0.15, capacity_factor := 0.85 }

/-! ## Claim theorems -/

/-- C1, counterexample: at `temperature_c = 50` (which satisfies
`temperature_c ≥ 50`, the claimed viability threshold) with positive
depth and the default efficiency and capacity factor, the computed
geothermal power is `0`, not strictly positive — the source guard is the
strict comparison `geo_temp > 50`. -/
theorem geo_threshold_boundary_counterexample :
    boundaryGeo.geo_temp ≥ 50 ∧ 0 < boundaryGeo.depth ∧
      (calcEnergy boundaryGeo).P_geo_MW = 0 := by
  refine ⟨by norm_num [boundaryGeo], by norm_num [boundaryGeo], ?_⟩
  rw [calcEnergy_P_geo]
  norm_num [boundaryGeo]

/-- C1, amended: for positive conversion efficiency and positive depth,
geothermal power is zero whenever `temperature_c ≤ 50` and strictly
positive and strictly increasing in `temperature_c` whenever
`temperature_c > 50` (the code's viability guard is strict). -/
theorem geo_power_strict_threshold (inp : EnergyInputs)
    (he : 0 < inp.geo_efficiency) (hd : 0 < inp.depth) :
    (inp.geo_temp ≤ 50 → (calcEnergy inp).P_geo_MW = 0) ∧
      (50 < inp.geo_temp → 0 < (calcEnergy inp).P_geo_MW) ∧
      ∀ inp' : EnergyInputs, inp'.geo_efficiency = inp.geo_efficiency →
        inp'.depth = inp.depth → 50 < inp.geo_temp → inp.geo_temp < inp'.geo_temp →
        (calcEnergy inp).P_geo_MW < (calcEnergy inp').P_geo_MW := by
  refine ⟨fun hle => ?_, fun hlt => ?_, fun inp' heq hde hlt hlt2 => ?_⟩
  · rw [calcEnergy_P_geo, if_neg]
    rintro ⟨h1, -⟩
    exact absurd h1 (not_lt.2 hle)
  · rw [calcEnergy_P_geo, if_pos ⟨hlt, hd⟩]
    have h25 : (0 : ℚ) < inp.geo_temp - 25 := by linarith
    positivity
  · have hcond : inp'.geo_temp > 50 ∧ inp'.depth > 0 :=
      ⟨lt_trans hlt hlt2, by rw [hde]; exact hd⟩
    rw [calcEnergy_P_geo, calcEnergy_P_geo, if_pos ⟨hlt, hd⟩, if_pos hcond, heq]
    have h1 : inp.geo_temp - 25 < inp'.geo_temp - 25 := by linarith
    have key : 50 * 4.18 * (inp.geo_temp - 25) * inp.geo_efficiency <
        50 * 4.18 * (inp'.geo_temp - 25) * inp.geo_efficiency := by
      nlinarith [mul_lt_mul_of_pos_right h1 he]
    linarith [key]

/-- Witness for the amended C1 at 60 °C vs 70 °C. -/
theorem geo_power_strict_threshold_witness :
    0 < sampleGeoA.geo_efficiency ∧ 0 < sampleGeoA.depth ∧
      0 < (calcEnergy sampleGeoA).P_geo_MW ∧
      (calcEnergy sampleGeoA).P_geo_MW < (calcEnergy sampleGeoB).P_geo_MW := by
  have h := geo_power_strict_threshold sampleGeoA (by norm_num [sampleGeoA])
    (by norm_num [sampleGeoA])
  exact ⟨by norm_num [sampleGeoA], by norm_num [sampleGeoA],
    h.2.1 (by norm_num [sampleGeoA]),
    h.2.2 sampleGeoB rfl rfl (by norm_num [sampleGeoA])
      (by norm_num [sampleGeoA, sampleGeoB])⟩

/-- C2: with capacity `0 MW` the forecast engine still runs and returns
one zero prediction per requested month (the scale factor is zero), and
the per-source partition weights fall back to `0.5`/`0.5` instead of
dividing by the zero baseline total. -/
theorem zero_capacity_forecast (predict : List ClimatePoint → ℚ) (wmw gmw : ℚ)
    (jT jR : ℤ → ℚ) (tm rm : ℚ) (s : ℤ) (n : ℕ) :
    (generateForecast predict ⟨0, wmw, gmw⟩ jT jR tm rm s n).total_mwh =
        List.replicate n 0 ∧
      sourceShare wmw 0 = 0.5 ∧ sourceShare gmw 0 = 0.5 := by
  refine ⟨?_, by norm_num [sourceShare], by norm_num [sourceShare]⟩
  show predictions_mwh (rollingLoop predict (0 : ℚ) (historical_months s)
      (forwardClimate jT jR tm rm s n)) = List.replicate n 0
  rw [predictions_mwh_rollingLoop]
  have h0 : (fun m : ℚ => m * ((0 : ℚ) * 730 / 3500)) = fun _ => (0 : ℚ) := by
    funext m; norm_num
  have hlen : (forwardClimate jT jR tm rm s n).length = n := by
    rw [forwardClimate, List.length_map, List.length_range]
  rw [h0, List.map_const', length_refPredictions, hlen]

/-- C3: every forecast step's energy is the model's reference prediction
times `(capacity_mw * 730) / 3500`, and the reported power of every step
is that energy divided by `730`. -/
theorem rescaling_formula (predict : List ClimatePoint → ℚ) (gb : GeoBase)
    (jT jR : ℤ → ℚ) (tm rm : ℚ) (s : ℤ) (n : ℕ) :
    (generateForecast predict gb jT jR tm rm s n).total_mwh =
        (refPredictions predict (historical_months s)
            (forwardClimate jT jR tm rm s n)).map
          (fun m => m * (gb.base_power_mw * 730) / 3500) ∧
      (generateForecast predict gb jT jR tm rm s n).total_mw =
        (generateForecast predict gb jT jR tm rm s n).total_mwh.map
          fun e => e / 730 := by
  constructor
  · show predictions_mwh (rollingLoop predict gb.base_power_mw (historical_months s)
        (forwardClimate jT jR tm rm s n)) = _
    rw [predictions_mwh_rollingLoop]
    exact List.map_congr_left fun m _ => by ring
  · rfl

/-- C4: when the seed window has 12 entries, after each loop step the
window again has exactly 12 entries, and the window after step `i` is
the 12-entry tail of the seed followed by the first `i+1` forward
climate points — only climate points ever enter it, never a model
prediction. -/
theorem rolling_window_ring_buffer (predict : List ClimatePoint → ℚ) (b : ℚ)
    (seed fwd : List ClimatePoint) (h : seed.length = 12) :
    loopWindows (rollingLoop predict b seed fwd) =
        ((List.range fwd.length).map fun i => (seed ++ fwd.take (i + 1)).drop (i + 1)) ∧
      ∀ w ∈ loopWindows (rollingLoop predict b seed fwd), w.length = 12 := by
  have hw := loopWindows_rollingLoop predict b fwd seed h
  refine ⟨hw, ?_⟩
  rw [hw]
  intro w hwmem
  simp only [List.mem_map, List.mem_range] at hwmem
  obtain ⟨i, hi, rfl⟩ := hwmem
  simp only [List.length_drop, List.length_append, List.length_take, h]
  omega

/-- Witness for C4 on a concrete 12-month seed and 2 forward points. -/
theorem rolling_window_ring_buffer_witness :
    (historical_months 1).length = 12 ∧
      ∀ w ∈ loopWindows (rollingLoop (fun _ => 1) 2 (historical_months 1)
          [⟨30, 100⟩, ⟨31, 200⟩]), w.length = 12 :=
  ⟨rfl, (rolling_window_ring_buffer (fun _ => 1) 2 (historical_months 1)
    [⟨30, 100⟩, ⟨31, 200⟩] rfl).2⟩

/-- C5: for positive flow and height, waterfall power is
`1000 · 9.81 · Q · H · η / 1e6` MW, annual waterfall energy is that
power times `24 · 365`, and scenario 1 (`Q = 10`, `H = 50`, `η = 0.9`)
computes `4.4145 MW ≈ 4.415 MW`. -/
theorem waterfall_power_formula (inp : EnergyInputs)
    (hq : 0 < inp.waterfall_flow) (hh : 0 < inp.waterfall_height) :
    (calcEnergy inp).P_waterfall_MW =
        1000 * 9.81 * inp.waterfall_flow * inp.waterfall_height *
          inp.turbine_efficiency / 1000000 ∧
      (calcEnergy inp).E_waterfall_year_MWh =
        (calcEnergy inp).P_waterfall_MW * 24 * 365 ∧
      (calcEnergy scenario1).P_waterfall_MW = 4.4145 ∧
      |(calcEnergy scenario1).P_waterfall_MW - 4.415| < 0.001 := by
  have hP : (calcEnergy scenario1).P_waterfall_MW = 4.4145 := by
    rw [calcEnergy_P_waterfall]
    norm_num [scenario1]
  refine ⟨?_, calcEnergy_E_waterfall inp, hP, ?_⟩
  · rw [calcEnergy_P_waterfall, if_pos ⟨hh, hq⟩]
  · rw [hP, abs_lt]
    constructor <;> norm_num

/-- Witness for C5 at the scenario-1 inputs. -/
theorem waterfall_power_formula_witness :
    0 < scenario1.waterfall_flow ∧ 0 < scenario1.waterfall_height ∧
      (calcEnergy scenario1).P_waterfall_MW =
        1000 * 9.81 * scenario1.waterfall_flow * scenario1.waterfall_height *
          scenario1.turbine_efficiency / 1000000 :=
  ⟨by norm_num [scenario1], by norm_num [scenario1],
    (waterfall_power_formula scenario1 (by norm_num [scenario1])
      (by norm_num [scenario1])).1⟩

/-- C6, counterexample: scenario 2 (`T = 200 °C`, `geo_eff = 0.15`,
`capacity_factor = 0.85`) yields annual energy exactly `40850.6175 MWh`,
which is more than 17 MWh away from the claimed "approximately
40,868 MWh". -/
theorem geo_annual_energy_counterexample :
    (calcEnergy scenario2).E_geo_year_MWh = 40850.6175 ∧
      17 < |(calcEnergy scenario2).E_geo_year_MWh - 40868| := by
  have hE : (calcEnergy scenario2).E_geo_year_MWh = 40850.6175 := by
    rw [calcEnergy_E_geo]
    norm_num [scenario2]
  refine ⟨hE, ?_⟩
  rw [hE]
  rw [abs_of_nonpos (by norm_num)]
  norm_num

/-- C6, amended: for every viable geothermal input electrical power is
`50 · 4.18 · (T − 25) · geo_eff / 1000` MW (the thermal power in kW
times the efficiency over 1000) and annual energy is that power times
`24 · 365 · capacity_factor`; scenario 2 gives thermal power
`50 · 4.18 · 175 = 36575 kW`, `P ≈ 5.486 MW` (exactly `5.48625`), and
annual energy exactly `40850.6175 MWh` (approximately 40,851, not
40,868). -/
theorem geo_power_formula (inp : EnergyInputs)
    (ht : 50 < inp.geo_temp) (hd : 0 < inp.depth) :
    (calcEnergy inp).P_geo_MW =
        50 * 4.18 * (inp.geo_temp - 25) * inp.geo_efficiency / 1000 ∧
      (calcEnergy inp).E_geo_year_MWh =
        (calcEnergy inp).P_geo_MW * 24 * 365 * inp.capacity_factor ∧
      50 * 4.18 * ((200 : ℚ) - 25) = 36575 ∧
      (calcEnergy scenario2).P_geo_MW = 5.48625 ∧
      |(calcEnergy scenario2).P_geo_MW - 5.486| < 0.001 ∧
      (calcEnergy scenario2).E_geo_year_MWh = 40850.6175 := by
  have hP : (calcEnergy scenario2).P_geo_MW = 5.48625 := by
    rw [calcEnergy_P_geo]
    norm_num [scenario2]
  have hE : (calcEnergy scenario2).E_geo_year_MWh = 40850.6175 := by
    rw [calcEnergy_E_geo]
    norm_num [scenario2]
  refine ⟨?_, ?_, by norm_num, hP, ?_, hE⟩
  · rw [calcEnergy_P_geo, if_pos ⟨ht, hd⟩]
  · rw [calcEnergy_E_geo, calcEnergy_P_geo, if_pos ⟨ht, hd⟩, if_pos ⟨ht, hd⟩]
  · rw [hP, abs_lt]
    constructor <;> norm_num

/-- Witness for the amended C6 at the scenario-2 inputs. -/
theorem geo_power_formula_witness :
    50 < scenario2.geo_temp ∧ 0 < scenario2.depth ∧
      (calcEnergy scenario2).P_geo_MW =
        50 * 4.18 * (scenario2.geo_temp - 25) * scenario2.geo_efficiency / 1000 :=
  ⟨by norm_num [scenario2], by norm_num [scenario2],
    (geo_power_formula scenario2 (by norm_num [scenario2])
      (by norm_num [scenario2])).1⟩

/-- C7: for every forecast step the confidence bounds are exactly
`0.85` and `1.15` times the step's predicted energy. -/
theorem confidence_band_fixed (predict : List ClimatePoint → ℚ) (gb : GeoBase)
    (jT jR : ℤ → ℚ) (tm rm : ℚ) (s : ℤ) (n : ℕ) :
    (generateForecast predict gb jT jR tm rm s n).conf_lower =
        (generateForecast predict gb jT jR tm rm s n).total_mwh.map
          (fun e => 0.85 * e) ∧
      (generateForecast predict gb jT jR tm rm s n).conf_upper =
        (generateForecast predict gb jT jR tm rm s n).total_mwh.map
          fun e => 1.15 * e :=
  ⟨confidence_lower_rollingLoop predict gb.base_power_mw
      (forwardClimate jT jR tm rm s n) (historical_months s),
    confidence_upper_rollingLoop predict gb.base_power_mw
      (forwardClimate jT jR tm rm s n) (historical_months s)⟩

/-- C8: the forecast pipeline is a deterministic function of its inputs:
two invocations on equal model, baseline data, jitter draws, scenario
multipliers, start month and horizon produce equal forecast series. -/
theorem forecast_deterministic (p₁ p₂ : List ClimatePoint → ℚ)
    (gb₁ gb₂ : GeoBase) (jT₁ jT₂ jR₁ jR₂ : ℤ → ℚ) (tm₁ tm₂ rm₁ rm₂ : ℚ)
    (s₁ s₂ : ℤ) (n₁ n₂ : ℕ) (hp : p₁ = p₂) (hgb : gb₁ = gb₂)
    (hjT : jT₁ = jT₂) (hjR : jR₁ = jR₂) (htm : tm₁ = tm₂) (hrm : rm₁ = rm₂)
    (hs : s₁ = s₂) (hn : n₁ = n₂) :
    generateForecast p₁ gb₁ jT₁ jR₁ tm₁ rm₁ s₁ n₁ =
      generateForecast p₂ gb₂ jT₂ jR₂ tm₂ rm₂ s₂ n₂ := by
  rw [hp, hgb, hjT, hjR, htm, hrm, hs, hn]

/-- Witness for C8 on concrete inputs. -/
theorem forecast_deterministic_witness :
    generateForecast (fun w => (w.map ClimatePoint.temp).sum) ⟨2, 1, 1⟩
        (fun _ => 1) (fun _ => 1) 1 1 11 3 =
      generateForecast (fun w => (w.map ClimatePoint.temp).sum) ⟨2, 1, 1⟩
        (fun _ => 1) (fun _ => 1) 1 1 11 3 :=
  forecast_deterministic _ _ _ _ _ _ _ _ _ _ _ _ _ _ _ _
    rfl rfl rfl rfl rfl rfl rfl rfl

/-- C9: a 15-month horizon starting in November (month 11) produces
labels that pass from `Dec Y1` to `Jan Y2` at the year boundary and
from `Dec Y2` to `Jan Y3` twelve months later. -/
theorem november_labels_wrap :
    (List.range 15).map (fun i => month_label 11 (i : ℤ)) =
      ["Nov Y1", "Dec Y1", "Jan Y2", "Feb Y2", "Mar Y2", "Apr Y2", "May Y2",
        "Jun Y2", "Jul Y2", "Aug Y2", "Sep Y2", "Oct Y2", "Nov Y2", "Dec Y2",
        "Jan Y3"] := by
  rfl

/-- C10: geothermal power and annual energy do not depend on the
drilling depth: any two positive depths with all other inputs equal
give identical results (depth enters only the viability guard). -/
theorem geo_depth_independent (inp : EnergyInputs) (d₁ d₂ : ℚ)
    (h₁ : 0 < d₁) (h₂ : 0 < d₂) :
    (calcEnergy { inp with depth := d₁ }).P_geo_MW =
        (calcEnergy { inp with depth := d₂ }).P_geo_MW ∧
      (calcEnergy { inp with depth := d₁ }).E_geo_year_MWh =
        (calcEnergy { inp with depth := d₂ }).E_geo_year_MWh := by
  by_cases hT : inp.geo_temp > 50 <;>
    simp [calcEnergy_P_geo, calcEnergy_E_geo, h₁, h₂, hT]

/-- Witness for C10: depths 1 km and 5 km at 60 °C. -/
theorem geo_depth_independent_witness :
    (0 : ℚ) < 1 ∧ (0 : ℚ) < 5 ∧
      (calcEnergy { sampleGeoA with depth := 1 }).P_geo_MW =
        (calcEnergy { sampleGeoA with depth := 5 }).P_geo_MW :=
  ⟨by norm_num, by norm_num,
    (geo_depth_independent sampleGeoA 1 5 (by norm_num) (by norm_num)).1⟩

end EarthPrize
